import Mathlib

set_option maxRecDepth 4000

/-!
A shallow embedding of the scout_apm Django middleware adapter
(src/scout_apm/django/middleware.py) together with the parts of the tracking
engine that it calls (TrackedRequest, Span, the Context store, ignore_path,
the N+1 call-set detector).  The engine itself is not part of this source
snapshot, so those definitions are modelled from the specification and say so
in their doc comments.  Python behaviour that the adapter leans on (string
slicing, the float constructor, datetime.utcfromtimestamp) is embedded
explicitly; timestamps are exact rationals and integer microseconds, datetime
resolution, so double rounding below a microsecond is not modelled.
-/

/-- A Python exception escaping a call, identified by its class name. -/
structure PyExc where
  name : String
deriving DecidableEq

/-- Modelled from the spec: a Span is a timed operation node (section 3).
Only what the middleware claims observe is carried: the mutable operation name
and an identity.  Python compares spans by object identity, rendered here as a
numeric id allocated by start_span. -/
structure Span where
  id : Nat
  operation : String
deriving DecidableEq

/-- Tag values occurring in the adapter: booleans, strings and integers. -/
inductive TagValue where
  | bool (b : Bool)
  | str (s : String)
  | int (n : Int)
deriving DecidableEq

/-- Modelled from the spec: the TrackedRequest aggregate (sections 3 and 4.1):
the stack of open spans, the request-level tags, the request-scoped Context
store (section 4.5), the real_request flag and the request start timestamp, a
datetime carried as integer microseconds since the epoch.  Completed-span
bookkeeping, stop timestamps and finalization are not observed by any claim
and are not carried. -/
structure TrackedRequest where
  startTimeUs : Int
  spanStack : List Span
  tags : List (String × TagValue)
  context : List (String × TagValue)
  realRequest : Bool
  nextSpanId : Nat
deriving DecidableEq

/-- Modelled from the spec (section 4.1): start_span creates a span whose
parent is the current top of stack, pushes it and returns it. -/
def TrackedRequest.start_span (tr : TrackedRequest) (operation : String) :
    Span × TrackedRequest :=
  let sp : Span := { id := tr.nextSpanId, operation := operation }
  (sp, { tr with spanStack := sp :: tr.spanStack, nextSpanId := tr.nextSpanId + 1 })

/-- Modelled from the spec (section 4.1): stop_span pops the top of the stack;
on an empty stack it is a no-op. -/
def TrackedRequest.stop_span (tr : TrackedRequest) : TrackedRequest :=
  { tr with spanStack := tr.spanStack.tail }

/-- Modelled from the spec (section 4.1): peek at the top of the span stack. -/
def TrackedRequest.current_span (tr : TrackedRequest) : Option Span :=
  tr.spanStack.head?

/-- Modelled from the spec (section 4.1): attach a request-level tag. -/
def TrackedRequest.tag (tr : TrackedRequest) (k : String) (v : TagValue) :
    TrackedRequest :=
  { tr with tags := (k, v) :: tr.tags }

/-- Modelled from the spec (section 4.1): set the real_request flag. -/
def TrackedRequest.mark_real_request (tr : TrackedRequest) : TrackedRequest :=
  { tr with realRequest := true }

/-- Modelled from the spec (section 4.5): Context.add on the request-scoped
store. -/
def TrackedRequest.context_add (tr : TrackedRequest) (k : String) (v : TagValue) :
    TrackedRequest :=
  { tr with context := (k, v) :: tr.context }

/-- Rename the span at the top of the stack: the mutation of the object
returned by current_span that ViewTimingMiddleware.process_view performs. -/
def TrackedRequest.set_current_span_operation (tr : TrackedRequest) (op : String) :
    TrackedRequest :=
  match tr.spanStack with
  | [] => tr
  | sp :: rest => { tr with spanStack := { sp with operation := op } :: rest }

deriving instance DecidableEq for Except

/-- The Django HttpRequest surface the adapter touches.  Attribute reads that
can raise are carried as Except values; meta is the WSGI header dict.  The
two scout span fields model the attributes the old-style middlewares store on
the request, none meaning the attribute is absent. -/
structure Request where
  meta : List (String × String)
  path : Except PyExc String
  resolver_match_func_path : Except PyExc String
  user_get_username : Option (Except PyExc String)
  scoutMiddlewareSpan : Option Span
  scoutViewSpan : Option Span
deriving DecidableEq

/-- Characters the Python float constructor strips as whitespace, restricted
to the latin-1 range reachable through a WSGI header value. -/
def py_ws (c : Char) : Bool :=
  c == ' ' || c == '\t' || c == '\n' || c == '\r' ||
    c == '\x0b' || c == '\x0c' || c == '\x85' || c == '\xa0'

def is_digit (c : Char) : Bool := '0' ≤ c && c ≤ '9'

def is_digit_or_underscore (c : Char) : Bool := is_digit c || c == '_'

/-- Tail of a digit grouping: every underscore must be followed by a digit.
Used after a digit head, so together with valid_digit_run this enforces the
CPython rule that an underscore sits between two digits. -/
def valid_run_tail : List Char → Bool
  | [] => true
  | '_' :: [] => false
  | '_' :: c :: rest => is_digit c && valid_run_tail (c :: rest)
  | _ :: rest => valid_run_tail rest

/-- A possibly-empty digitpart with CPython underscore rules. -/
def valid_digit_run : List Char → Bool
  | [] => true
  | c :: rest => is_digit c && valid_run_tail rest

def digit_chars (l : List Char) : List Char := l.filter is_digit

def digits_val (l : List Char) : Nat :=
  l.foldl (fun a c => a * 10 + (c.toNat - '0'.toNat)) 0

/-- Optional sign; true means a leading minus was consumed. -/
def parse_sign : List Char → Bool × List Char
  | '+' :: rest => (false, rest)
  | '-' :: rest => (true, rest)
  | l => (false, l)

def rat_pow10 (e : Int) : Rat :=
  if 0 ≤ e then (10 : Rat) ^ e.toNat else 1 / (10 : Rat) ^ (-e).toNat

/-- Numeric value from sign, integer digits, fractional digits and a decimal
exponent. -/
def float_val (neg : Bool) (ip fp : List Char) (ex : Int) : Rat :=
  let fd := digit_chars fp
  let mant : Rat :=
    (digits_val (digit_chars ip) : Rat) + (digits_val fd : Rat) / (10 : Rat) ^ fd.length
  let v := mant * rat_pow10 ex
  if neg then -v else v

/-- The Python float constructor on a string containing exactly one dot, the
shape track_request_queue_time always builds: optional whitespace and sign, a
digitpart, the dot, a digitpart, an optional exponent, optional trailing
whitespace, at least one digit around the dot, CPython underscore rules.
Returns none exactly when float would raise ValueError. -/
def py_float_dot (cs : List Char) : Option Rat :=
  let l1 := cs.dropWhile py_ws
  let (neg, l2) := parse_sign l1
  let (run1, r1) := l2.span is_digit_or_underscore
  match r1 with
  | '.' :: r2 =>
    let (run2, r3) := r2.span is_digit_or_underscore
    if valid_digit_run run1 && valid_digit_run run2 &&
        !(digit_chars run1 ++ digit_chars run2).isEmpty then
      match r3 with
      | [] => some (float_val neg run1 run2 0)
      | c :: r4 =>
        if c == 'e' || c == 'E' then
          let (negE, r5) := parse_sign r4
          let (runE, r6) := r5.span is_digit_or_underscore
          if !runE.isEmpty && valid_digit_run runE && r6.all py_ws then
            some (float_val neg run1 run2
              (if negE then -(digits_val (digit_chars runE) : Int)
               else (digits_val (digit_chars runE) : Int)))
          else none
        else if (c :: r4).all py_ws then some (float_val neg run1 run2 0)
        else none
    else none
  | _ => none

/-- Python slicing l[a:b] on a list of characters. -/
def py_slice (l : List Char) (a b : Nat) : List Char :=
  (l.drop a).take (b - a)

/-- raw_start[0:10] + "." + raw_start[10:13], the string handed to float. -/
def float_input (raw : List Char) : List Char :=
  py_slice raw 0 10 ++ '.' :: py_slice raw 10 13

/-- The float step of track_request_queue_time on the stripped header. -/
def parsed_from_raw (raw : List Char) : Option Rat :=
  py_float_dot (float_input raw)

/-- re.sub of the pattern matching a t-equals pair or a dot, replaced by the
empty string: a single left-to-right scan removing each non-overlapping
match. -/
def queue_time_sub : List Char → List Char
  | [] => []
  | 't' :: '=' :: rest => queue_time_sub rest
  | '.' :: rest => queue_time_sub rest
  | c :: rest => c :: queue_time_sub rest

/-- The timestamp track_request_queue_time parses from a header value; none
when float raises ValueError, which the function catches. -/
def parsed_header_timestamp (hv : String) : Option Rat :=
  parsed_from_raw (queue_time_sub hv.data)

def rat_floor (q : Rat) : Int := Int.fdiv q.num (q.den : Int)

/-- Round to the nearest integer, ties to even: the rounding datetime applies
when turning a float timestamp into whole microseconds. -/
def round_half_even (q : Rat) : Int :=
  let f := rat_floor q
  let r := q - (f : Rat)
  if r < 1 / 2 then f
  else if 1 / 2 < r then f + 1
  else if f % 2 = 0 then f else f + 1

/-- Year 1 and year 9999 bounds of the datetimes utcfromtimestamp can build,
in microseconds since the epoch. -/
def datetime_min_us : Int := -62135596800000000

def datetime_max_us : Int := 253402300799999999

/-- datetime.utcfromtimestamp at microsecond resolution; none models the
OverflowError or out-of-range ValueError it raises outside the representable
range, which track_request_queue_time does not catch. -/
def utcfromtimestamp_us (t : Rat) : Option Int :=
  let us := round_half_even (t * 1000000)
  if datetime_min_us ≤ us && us ≤ datetime_max_us then some us else none

def meta_get (meta : List (String × String)) (k : String) : Option String :=
  (meta.find? (fun kv => kv.1 == k)).map (fun kv => kv.2)

/-- META.get of X-Queue-Start or-else X-Request-Start, then the falsiness
check: Python treats None and the empty string as false. -/
def effective_header (meta : List (String × String)) : Option String :=
  let a := meta_get meta "HTTP_X_QUEUE_START"
  let b := meta_get meta "HTTP_X_REQUEST_START"
  let hv := match a with
    | some s => if s == "" then b else some s
    | none => b
  match hv with
  | some s => if s == "" then none else some s
  | none => none

def py_exc_ts_out_of_range : PyExc := { name := "timestamp out of range" }

/-- track_request_queue_time: read the queue-start header, strip t-equals
pairs and dots, hand the first ten and next three characters to float, convert
with utcfromtimestamp, ignore a future timestamp, otherwise tag the request
with the whole-microsecond queue time.  Only the ValueError of float is
caught; an exception from utcfromtimestamp escapes. -/
def track_request_queue_time (request : Request) (tracked_request : TrackedRequest) :
    Except PyExc TrackedRequest :=
  match effective_header request.meta with
  | none => .ok tracked_request
  | some hv =>
    match parsed_header_timestamp hv with
    | none => .ok tracked_request
    | some ts =>
      match utcfromtimestamp_us ts with
      | none => .error py_exc_ts_out_of_range
      | some parsed_start_us =>
        if tracked_request.startTimeUs < parsed_start_us then .ok tracked_request
        else .ok (tracked_request.tag "scout.queue_time_us"
            (TagValue.int (tracked_request.startTimeUs - parsed_start_us)))

/-- Modelled from the spec (section 4.4): pure predicate over the configured
ignored path patterns, matched as path prefixes. -/
def ignore_path (ignored : List String) (path : String) : Bool :=
  ignored.any (fun pat => pat.data.isPrefixOf path.data)

/-- MiddlewareTimingMiddleware dunder-call: start the Middleware span, tag the
queue time, then call get_response inside a try whose finally stops the span.
The tracked-request state is threaded explicitly; get_response stands for the
rest of the middleware stack and may itself raise, which the finally still
covers.  Note that track_request_queue_time runs before the try: an exception
it raises skips both get_response and the stop. -/
def MiddlewareTimingMiddleware.call {R : Type}
    (get_response : Request → TrackedRequest → (Except PyExc R) × TrackedRequest)
    (request : Request) (tr : TrackedRequest) : (Except PyExc R) × TrackedRequest :=
  let (_, tr1) := tr.start_span "Middleware"
  match track_request_queue_time request tr1 with
  | .error e => (.error e, tr1)
  | .ok tr2 =>
    let (res, tr3) := get_response request tr2
    (res, tr3.stop_span)

/-- ViewTimingMiddleware dunder-call: mark_real_request, start the placeholder
Unknown span, run get_response under a try whose finally stops the span, and
give back the outcome of get_response unchanged. -/
def ViewTimingMiddleware.call {R : Type}
    (get_response : Request → TrackedRequest → (Except PyExc R) × TrackedRequest)
    (request : Request) (tr : TrackedRequest) : (Except PyExc R) × TrackedRequest :=
  let tr1 := tr.mark_real_request
  let (_, tr2) := tr1.start_span "Unknown"
  let (res, tr3) := get_response request tr2
  (res, tr3.stop_span)

/-- The body of the try block of ViewTimingMiddleware.process_view: the state
reached so far, paired with the exception that interrupted it, if any.
remote_ip stands for RemoteIp.lookup_from_headers, a pure function of the
header dict. -/
def ViewTimingMiddleware.process_view_try (ignored : List String)
    (remote_ip : List (String × String) → String)
    (request : Request) (tr : TrackedRequest) : TrackedRequest × Option PyExc :=
  match request.path with
  | .error e => (tr, some e)
  | .ok p =>
    let tr1 := if ignore_path ignored p then tr.tag "ignore_transaction" (TagValue.bool true)
      else tr
    match request.resolver_match_func_path with
    | .error e => (tr1, some e)
    | .ok view_name =>
      match tr1.current_span with
      | none => (tr1, none)
      | some _ =>
        let tr2 := tr1.set_current_span_operation ("Controller/" ++ view_name)
        let tr3 := (tr2.context_add "path" (TagValue.str p)).context_add "user_ip"
            (TagValue.str (remote_ip request.meta))
        match request.user_get_username with
        | none => (tr3, none)
        | some (.ok u) => (tr3.context_add "username" (TagValue.str u), none)
        | some (.error e) => (tr3, some e)

/-- ViewTimingMiddleware.process_view: the try body under an except-pass that
swallows every exception, keeping the state reached. -/
def ViewTimingMiddleware.process_view (ignored : List String)
    (remote_ip : List (String × String) → String)
    (request : Request) (tr : TrackedRequest) : TrackedRequest :=
  (ViewTimingMiddleware.process_view_try ignored remote_ip request tr).1

/-- OldStyleViewMiddleware.process_view.  Only the username read sits in a
try/except; an exception from request.path or request.resolver_match escapes,
carrying the state mutated up to that point.  On success the started span,
which the source stores on the request as scout_view_span, is returned with
the state. -/
def OldStyleViewMiddleware.process_view (ignored : List String)
    (request : Request) (tr : TrackedRequest) :
    Except (PyExc × TrackedRequest) (TrackedRequest × Span) :=
  match request.path with
  | .error e => .error (e, tr)
  | .ok p =>
    let tr1 := if ignore_path ignored p then tr.tag "ignore_transaction" (TagValue.bool true)
      else tr
    match request.resolver_match_func_path with
    | .error e => .error (e, tr1)
    | .ok view_name =>
      let (span, tr2) := tr1.start_span ("Controller/" ++ view_name)
      let tr3 := tr2.mark_real_request
      let tr4 := match request.user_get_username with
        | some (.ok u) => tr3.context_add "username" (TagValue.str u)
        | _ => tr3
      .ok (tr4, span)

/-- hasattr of the saved scout span attribute combined with the equality test
against current_span: Python compares the two span objects by identity,
rendered as id equality; a missing attribute or an empty stack gives false. -/
def span_is (saved current : Option Span) : Bool :=
  match saved, current with
  | some sv, some cur => sv.id == cur.id
  | _, _ => false

/-- OldStyleMiddlewareTimingMiddleware.process_response: stop only when the
span saved at start time is the current span; always hand back the response
unchanged. -/
def OldStyleMiddlewareTimingMiddleware.process_response {R : Type}
    (request : Request) (response : R) (tr : TrackedRequest) : R × TrackedRequest :=
  if span_is request.scoutMiddlewareSpan tr.current_span then (response, tr.stop_span)
  else (response, tr)

/-- OldStyleViewMiddleware.process_response: stop only when the span saved by
process_view is the current span; always hand back the response unchanged. -/
def OldStyleViewMiddleware.process_response {R : Type}
    (request : Request) (response : R) (tr : TrackedRequest) : R × TrackedRequest :=
  if span_is request.scoutViewSpan tr.current_span then (response, tr.stop_span)
  else (response, tr)

/-- Modelled from the spec (sections 3 and 4.3): one call-set item of the N+1
detector: a normalized signature, the running count of observations, and
whether a backtrace has been captured for this item. -/
structure CallSetItem where
  sig : String
  count : Nat
  capturedBacktrace : Bool
deriving DecidableEq

/-- Modelled from the spec (section 4.3): the per-request collection of
call-set items. -/
structure NPlusOneCallSet where
  items : List CallSetItem
deriving DecidableEq

/-- Modelled from the spec (section 4.3): find or create the item for a
signature, increment its count, and capture a backtrace exactly when the count
has just crossed the threshold, the capture policy allows it, and the item has
not captured one before.  The Bool returned reports whether this call
captured. -/
def update_items (threshold : Nat) (policy : Bool) (sig : String) :
    List CallSetItem → List CallSetItem × Bool
  | [] =>
    let cap := (1 == threshold) && policy
    ([{ sig := sig, count := 1, capturedBacktrace := cap }], cap)
  | it :: rest =>
    if it.sig == sig then
      let cap := (it.count + 1 == threshold) && policy && !it.capturedBacktrace
      ({ sig := it.sig, count := it.count + 1,
         capturedBacktrace := it.capturedBacktrace || cap } :: rest, cap)
    else
      let (r, cap) := update_items threshold policy sig rest
      (it :: r, cap)

/-- Modelled from the spec (section 4.3): the update operation of the N+1
call-set detector. -/
def NPlusOneCallSet.update (threshold : Nat) (policy : Bool) (sig : String)
    (cs : NPlusOneCallSet) : NPlusOneCallSet × Bool :=
  let (items, cap) := update_items threshold policy sig cs.items
  ({ items := items }, cap)

/-- Feed the same signature n times, counting how many of the calls captured a
backtrace. -/
def feed_same (threshold : Nat) (policy : Bool) (sig : String) :
    Nat → NPlusOneCallSet → NPlusOneCallSet × Nat
  | 0, cs => (cs, 0)
  | n + 1, cs =>
    let (cs1, cap) := NPlusOneCallSet.update threshold policy sig cs
    let (cs2, k) := feed_same threshold policy sig n cs1
    (cs2, (if cap then 1 else 0) + k)

/-- The strip step exactly as the tenth claim words it: remove a leading
t-equals pair, then every dot. -/
def strip_t_head_then_dots (l : List Char) : List Char :=
  let l1 := match l with
    | 't' :: '=' :: rest => rest
    | other => other
  l1.filter (fun c => !(c == '.'))

/-- The parse the tenth claim describes, built on its own strip step. -/
def spec_c10_head_parse (hv : String) : Option Rat :=
  parsed_from_raw (strip_t_head_then_dots hv.data)

/-- The amended strip: remove every occurrence of a t-equals pair, left to
right and non-overlapping, then every dot. -/
def remove_t_eq : List Char → List Char
  | [] => []
  | 't' :: '=' :: rest => remove_t_eq rest
  | c :: rest => c :: remove_t_eq rest

/-- Strip step of the amended tenth claim. -/
def strip_all_t_eq_then_dots (l : List Char) : List Char :=
  (remove_t_eq l).filter (fun c => !(c == '.'))

/-- The parse the amended tenth claim describes. -/
def spec_c10_amended_parse (hv : String) : Option Rat :=
  parsed_from_raw (strip_all_t_eq_then_dots hv.data)

/-- A fresh tracked request with no open span, used as a concrete input. -/
def tr_fresh : TrackedRequest :=
  { startTimeUs := 1600000000623000, spanStack := [], tags := [], context := [],
    realRequest := false, nextSpanId := 0 }

/-- Concrete request carrying the queue-time header of the first claim. -/
def req_c1 : Request :=
  { meta := [("HTTP_X_QUEUE_START", "t=1600000000.123000")], path := Except.ok "/",
    resolver_match_func_path := Except.ok "app.views.index", user_get_username := none,
    scoutMiddlewareSpan := none, scoutViewSpan := none }

/-- Concrete request whose queue-time header lies in the future relative to
tr_fresh. -/
def req_future : Request :=
  { meta := [("HTTP_X_REQUEST_START", "9999999999")], path := Except.ok "/",
    resolver_match_func_path := Except.ok "app.views.index", user_get_username := none,
    scoutMiddlewareSpan := none, scoutViewSpan := none }

/-- Concrete request with an unparseable queue-time header. -/
def req_garbage : Request :=
  { meta := [("HTTP_X_QUEUE_START", "garbage")], path := Except.ok "/",
    resolver_match_func_path := Except.ok "app.views.index", user_get_username := none,
    scoutMiddlewareSpan := none, scoutViewSpan := none }

/-- Concrete request whose queue-time header parses as a float far outside the
datetime range: ten digits, then the letter e, then one digit. -/
def req_overflow : Request :=
  { meta := [("HTTP_X_QUEUE_START", "1234567890e9")], path := Except.ok "/",
    resolver_match_func_path := Except.error { name := "AttributeError" },
    user_get_username := none, scoutMiddlewareSpan := none, scoutViewSpan := none }

/-- Concrete request whose resolver_match attribute read raises. -/
def req_attr_error : Request :=
  { meta := [], path := Except.ok "/x",
    resolver_match_func_path := Except.error { name := "AttributeError" },
    user_get_username := none, scoutMiddlewareSpan := none, scoutViewSpan := none }

/-- A concrete span and a tracked request holding it, for the identity-check
claims. -/
def span_a : Span := { id := 0, operation := "Middleware" }

/-- Tracked request whose current span is span_a. -/
def tr_with_span : TrackedRequest :=
  { startTimeUs := 1600000000623000, spanStack := [span_a], tags := [], context := [],
    realRequest := true, nextSpanId := 1 }

/-- Request that saved span_a as its middleware span and saved a different,
stale span as its view span. -/
def req_saved : Request :=
  { meta := [], path := Except.ok "/", resolver_match_func_path := Except.ok "app.views.index",
    user_get_username := none, scoutMiddlewareSpan := some span_a,
    scoutViewSpan := some { id := 7, operation := "Controller/old" } }

/-- Concrete request whose username read raises. -/
def req_user_error : Request :=
  { meta := [("REMOTE_ADDR", "10.0.0.1")], path := Except.ok "/hello/",
    resolver_match_func_path := Except.ok "app.views.hello",
    user_get_username := some (Except.error { name := "ValueError" }),
    scoutMiddlewareSpan := none, scoutViewSpan := none }

/-- Concrete request to an ignored path. -/
def req_health : Request :=
  { meta := [], path := Except.ok "/health/check",
    resolver_match_func_path := Except.ok "app.views.health", user_get_username := none,
    scoutMiddlewareSpan := none, scoutViewSpan := none }

/-- Concrete noise request: its resolver never matched a view, and the
pipeline below the view-timing middleware returns a response without ever
invoking process_view. -/
def req_noise : Request :=
  { meta := [], path := Except.ok "/static/missing.png",
    resolver_match_func_path := Except.error { name := "AttributeError" },
    user_get_username := none, scoutMiddlewareSpan := none, scoutViewSpan := none }

attribute [local semireducible] Rat.mul Rat.add Rat.sub Rat.inv Rat.ofScientific

/-- The single-scan strip of the source equals the amended spec-side strip:
removing every t-equals pair first and every dot afterwards. -/
theorem queue_time_sub_eq_strip (l : List Char) :
    queue_time_sub l = strip_all_t_eq_then_dots l := by
  unfold strip_all_t_eq_then_dots
  induction l using queue_time_sub.induct with
  | case1 => rfl
  | case2 rest ih => simp [queue_time_sub, remove_t_eq, ih]
  | case3 rest ih => simp [queue_time_sub, remove_t_eq, ih]
  | case4 c rest h1 h2 ih =>
    simp [queue_time_sub, remove_t_eq, ih, List.filter_cons, beq_iff_eq]
    rw [if_neg h2]

/-- The float step only ever sees the first thirteen characters of the
stripped header. -/
theorem parsed_from_raw_take_13 (raw : List Char) :
    parsed_from_raw raw = parsed_from_raw (raw.take 13) := by
  simp [parsed_from_raw, float_input, py_slice, List.take_take, List.drop_take]

/-- Claim C10, counterexample: the parser does not strip only a leading
t-equals pair; on a header whose t-equals pair sits after the first character
the code parses a timestamp while the claimed prefix-only strip parses
nothing. -/
theorem c10_counterexample :
    parsed_header_timestamp "1t=234567890123" ≠ spec_c10_head_parse "1t=234567890123" := by
  decide

/-- Claim C10 (amended): the queue-time header parser strips every occurrence
of a t-equals pair and every dot, then keeps the first ten remaining
characters and the next three around a new dot and applies the float
constructor; the result depends only on the first thirteen stripped
characters, and the microsecond-precision header of the claim parses to the
millisecond-truncated timestamp. -/
theorem c10_amended_thm :
    (∀ hv : String, parsed_header_timestamp hv = spec_c10_amended_parse hv) ∧
    (∀ raw : List Char, parsed_from_raw raw = parsed_from_raw (raw.take 13)) ∧
    parsed_header_timestamp "t=1600000000.123456" = some ((1600000000123 : Rat) / 1000) := by
  refine ⟨?_, parsed_from_raw_take_13, by decide⟩
  intro hv
  unfold parsed_header_timestamp spec_c10_amended_parse
  rw [queue_time_sub_eq_strip]

/-- Claim C5: a header value from which float can parse no timestamp makes
track_request_queue_time return with the tracked request unchanged: no tag and
no exception. -/
theorem c5_thm (request : Request) (tr : TrackedRequest) (hv : String)
    (h1 : effective_header request.meta = some hv)
    (h2 : parsed_header_timestamp hv = none) :
    track_request_queue_time request tr = Except.ok tr := by
  unfold track_request_queue_time
  simp only [h1, h2]

/-- Claim C5 witness at a concrete unparseable header. -/
theorem c5_witness : track_request_queue_time req_garbage tr_fresh = Except.ok tr_fresh :=
  c5_thm req_garbage tr_fresh "garbage" (by decide) (by decide)

/-- Claim C1: with the header value of the claim and a request start half a
second after the parsed instant, track_request_queue_time adds the
scout.queue_time_us tag with value 500000 exactly; and whenever the parsed
header timestamp lies strictly after the tracked start, no tag is added. -/
theorem c1_thm (tr : TrackedRequest) (request : Request)
    (h1 : tr.startTimeUs = 1600000000623000)
    (h2 : request.meta = [("HTTP_X_QUEUE_START", "t=1600000000.123000")]) :
    track_request_queue_time request tr =
      Except.ok (tr.tag "scout.queue_time_us" (TagValue.int 500000)) ∧
    (∀ (request2 : Request) (tr2 : TrackedRequest) (hv : String) (ts : Rat) (us : Int),
      effective_header request2.meta = some hv →
      parsed_header_timestamp hv = some ts →
      utcfromtimestamp_us ts = some us →
      tr2.startTimeUs < us →
      track_request_queue_time request2 tr2 = Except.ok tr2) := by
  constructor
  · have e1 : effective_header request.meta = some "t=1600000000.123000" := by
      rw [h2]; decide
    have e2 : parsed_header_timestamp "t=1600000000.123000" =
        some ((1600000000123 : Rat) / 1000) := by decide
    have e3 : utcfromtimestamp_us ((1600000000123 : Rat) / 1000) =
        some 1600000000123000 := by decide
    unfold track_request_queue_time
    simp only [e1, e2, e3]
    rw [h1]
    norm_num
  · intro request2 tr2 hv ts us g1 g2 g3 g4
    unfold track_request_queue_time
    simp only [g1, g2, g3]
    rw [if_pos g4]

/-- Claim C1 witness at the concrete request and tracked request. -/
theorem c1_witness :
    track_request_queue_time req_c1 tr_fresh =
      Except.ok (tr_fresh.tag "scout.queue_time_us" (TagValue.int 500000)) :=
  (c1_thm tr_fresh req_c1 rfl rfl).1

/-- Claim C4: on every header value the function either leaves the tracked
request untouched, raises, or adds the scout.queue_time_us tag with a
non-negative value; and a parsed timestamp strictly later than the tracked
start adds no tag. -/
theorem c4_thm (request : Request) (tr : TrackedRequest) :
    ((∃ e, track_request_queue_time request tr = Except.error e) ∨
      track_request_queue_time request tr = Except.ok tr ∨
      (∃ v : Int, 0 ≤ v ∧ track_request_queue_time request tr =
        Except.ok (tr.tag "scout.queue_time_us" (TagValue.int v)))) ∧
    (∀ (hv : String) (ts : Rat) (us : Int),
      effective_header request.meta = some hv →
      parsed_header_timestamp hv = some ts →
      utcfromtimestamp_us ts = some us →
      tr.startTimeUs < us →
      track_request_queue_time request tr = Except.ok tr) := by
  constructor
  · cases h1 : effective_header request.meta with
    | none =>
      refine Or.inr (Or.inl ?_)
      unfold track_request_queue_time
      simp only [h1]
    | some hv =>
      cases h2 : parsed_header_timestamp hv with
      | none =>
        refine Or.inr (Or.inl ?_)
        unfold track_request_queue_time
        simp only [h1, h2]
      | some ts =>
        cases h3 : utcfromtimestamp_us ts with
        | none =>
          refine Or.inl ⟨py_exc_ts_out_of_range, ?_⟩
          unfold track_request_queue_time
          simp only [h1, h2, h3]
        | some us =>
          by_cases h4 : tr.startTimeUs < us
          · refine Or.inr (Or.inl ?_)
            unfold track_request_queue_time
            simp only [h1, h2, h3]
            rw [if_pos h4]
          · refine Or.inr (Or.inr ⟨tr.startTimeUs - us, by omega, ?_⟩)
            unfold track_request_queue_time
            simp only [h1, h2, h3]
            rw [if_neg h4]
  · intro hv ts us g1 g2 g3 g4
    unfold track_request_queue_time
    simp only [g1, g2, g3]
    rw [if_pos g4]

/-- Claim C4 witness: the future-header request is left untouched. -/
theorem c4_witness : track_request_queue_time req_future tr_fresh = Except.ok tr_fresh :=
  (c4_thm req_future tr_fresh).2 "9999999999" (9999999999 : Rat) 9999999999000000
    (by decide) (by decide) (by decide) (by decide)

/-- Renaming the current span leaves the request-level tags unchanged. -/
theorem set_current_span_operation_tags (t : TrackedRequest) (op : String) :
    (t.set_current_span_operation op).tags = t.tags := by
  unfold TrackedRequest.set_current_span_operation
  cases t.spanStack <;> rfl

/-- Adding request context leaves the request-level tags unchanged. -/
theorem context_add_tags (t : TrackedRequest) (k : String) (v : TagValue) :
    (t.context_add k v).tags = t.tags := rfl

/-- Claim C2, divergence evidence: a pipeline that never runs a view, as for a
static-asset miss, still leaves the view-timing middleware marking the tracked
request as real, because the dunder-call marks unconditionally before calling
through. -/
theorem c2_marks_noise_as_real :
    tr_fresh.realRequest = false ∧
    ((ViewTimingMiddleware.call (fun _ tr => (Except.ok (0 : Nat), tr)) req_noise
        tr_fresh).2).realRequest = true := by
  constructor <;> rfl

/-- Claim C7, divergence evidence: a queue-start header of ten digits, the
letter e and one more digit parses as a float far outside the datetime range,
so MiddlewareTimingMiddleware lets the conversion exception escape before the
try block: get_response's value is not returned and the started span is never
stopped. -/
theorem c7_overflow_header_escapes :
    (MiddlewareTimingMiddleware.call (fun _ tr => (Except.ok (0 : Nat), tr)) req_overflow
        tr_fresh).1 = Except.error py_exc_ts_out_of_range ∧
    ((MiddlewareTimingMiddleware.call (fun _ tr => (Except.ok (0 : Nat), tr)) req_overflow
        tr_fresh).2).spanStack.length = tr_fresh.spanStack.length + 1 := by
  constructor <;> decide

/-- Claim C3, counterexample: on a request whose resolver_match read raises,
OldStyleViewMiddleware.process_view propagates the exception instead of
returning normally. -/
theorem c3_counterexample :
    OldStyleViewMiddleware.process_view [] req_attr_error tr_fresh =
      Except.error ({ name := "AttributeError" }, tr_fresh) := by
  rfl

/-- Claim C3 (amended): ViewTimingMiddleware.process_view swallows every
adapter-side exception, a raising username read included, while
OldStyleViewMiddleware.process_view swallows only the username read: an
exception from request.path propagates, and when path and resolver_match read
fine the hook returns normally whatever the username read does. -/
theorem c3_amended_thm (ignored : List String)
    (remote_ip : List (String × String) → String) (request : Request)
    (tr : TrackedRequest) :
    (∀ e, request.path = Except.error e →
      ViewTimingMiddleware.process_view ignored remote_ip request tr = tr ∧
      OldStyleViewMiddleware.process_view ignored request tr = Except.error (e, tr)) ∧
    (∀ e, ViewTimingMiddleware.process_view ignored remote_ip
        { request with user_get_username := some (Except.error e) } tr =
      ViewTimingMiddleware.process_view ignored remote_ip
        { request with user_get_username := none } tr) ∧
    (∀ p vn, request.path = Except.ok p → request.resolver_match_func_path = Except.ok vn →
      ∃ res, OldStyleViewMiddleware.process_view ignored request tr = Except.ok res) := by
  refine ⟨?_, ?_, ?_⟩
  · intro e he
    constructor
    · unfold ViewTimingMiddleware.process_view ViewTimingMiddleware.process_view_try
      simp only [he]
    · unfold OldStyleViewMiddleware.process_view
      simp only [he]
  · intro e
    unfold ViewTimingMiddleware.process_view ViewTimingMiddleware.process_view_try
    cases hp : request.path with
    | error e2 => simp only [hp]
    | ok p =>
      simp only [hp]
      cases hr : request.resolver_match_func_path with
      | error e2 => simp only [hr]
      | ok vn =>
        simp only [hr]
        cases hcs : (if ignore_path ignored p then
            tr.tag "ignore_transaction" (TagValue.bool true) else tr).current_span with
        | none => simp only [hcs]
        | some sp => simp only [hcs]
  · intro p vn hp hv
    unfold OldStyleViewMiddleware.process_view
    simp only [hp, hv]
    exact ⟨_, rfl⟩

/-- Claim C3 witness: a request whose every attribute read raises leaves the
new-style hook returning the state unchanged, and a raising username read
leaves the old-style hook returning normally. -/
theorem c3_amended_witness :
    ViewTimingMiddleware.process_view [] (fun _ => "10.0.0.1")
      { meta := [], path := Except.error { name := "AttributeError" },
        resolver_match_func_path := Except.error { name := "AttributeError" },
        user_get_username := some (Except.error { name := "ValueError" }),
        scoutMiddlewareSpan := none, scoutViewSpan := none } tr_fresh = tr_fresh ∧
    ∃ res, OldStyleViewMiddleware.process_view [] req_user_error tr_fresh = Except.ok res :=
  ⟨((c3_amended_thm [] (fun _ => "10.0.0.1")
      { meta := [], path := Except.error { name := "AttributeError" },
        resolver_match_func_path := Except.error { name := "AttributeError" },
        user_get_username := some (Except.error { name := "ValueError" }),
        scoutMiddlewareSpan := none, scoutViewSpan := none } tr_fresh).1
      { name := "AttributeError" } rfl).1,
    (c3_amended_thm [] (fun _ => "10.0.0.1") req_user_error tr_fresh).2.2
      "/hello/" "app.views.hello" rfl rfl⟩

/-- Claim C6: the old-style process_response hooks stop a span only when the
span saved on the request is, by identity, the current span; a missing saved
span or a non-current one leaves the tracked request untouched, and the
response always passes through unchanged. -/
theorem c6_thm (R : Type) (response : R) (request : Request) (tr : TrackedRequest) :
    (span_is request.scoutMiddlewareSpan tr.current_span = true →
      OldStyleMiddlewareTimingMiddleware.process_response request response tr =
        (response, tr.stop_span)) ∧
    (span_is request.scoutMiddlewareSpan tr.current_span = false →
      OldStyleMiddlewareTimingMiddleware.process_response request response tr =
        (response, tr)) ∧
    (span_is request.scoutViewSpan tr.current_span = true →
      OldStyleViewMiddleware.process_response request response tr =
        (response, tr.stop_span)) ∧
    (span_is request.scoutViewSpan tr.current_span = false →
      OldStyleViewMiddleware.process_response request response tr = (response, tr)) ∧
    (∀ saved current : Option Span, span_is saved current = true ↔
      ∃ sv cur : Span, saved = some sv ∧ current = some cur ∧ sv.id = cur.id) := by
  refine ⟨?_, ?_, ?_, ?_, ?_⟩
  · intro h
    unfold OldStyleMiddlewareTimingMiddleware.process_response
    rw [if_pos h]
  · intro h
    unfold OldStyleMiddlewareTimingMiddleware.process_response
    rw [if_neg (by simp [h])]
  · intro h
    unfold OldStyleViewMiddleware.process_response
    rw [if_pos h]
  · intro h
    unfold OldStyleViewMiddleware.process_response
    rw [if_neg (by simp [h])]
  · intro saved current
    cases saved with
    | none => simp [span_is]
    | some sv =>
      cases current with
      | none => simp [span_is]
      | some cur => simp [span_is]

/-- Claim C6 witness: with span_a current, the middleware hook that saved
span_a stops it, while the view hook that saved a different span leaves the
tracked request untouched. -/
theorem c6_witness :
    OldStyleMiddlewareTimingMiddleware.process_response req_saved (0 : Nat) tr_with_span =
      ((0 : Nat), tr_with_span.stop_span) ∧
    OldStyleViewMiddleware.process_response req_saved (0 : Nat) tr_with_span =
      ((0 : Nat), tr_with_span) :=
  ⟨(c6_thm Nat 0 req_saved tr_with_span).1 rfl,
   (c6_thm Nat 0 req_saved tr_with_span).2.2.2.1 rfl⟩

/-- Whatever happens inside the try body of the new-style process_view, the
request-level tags end as those present after the ignore-path check. -/
theorem view_timing_try_tags (ignored : List String)
    (remote_ip : List (String × String) → String) (request : Request)
    (t : TrackedRequest) (p : String) (hp : request.path = Except.ok p) :
    ((ViewTimingMiddleware.process_view_try ignored remote_ip request t).1).tags =
      (if ignore_path ignored p then t.tag "ignore_transaction" (TagValue.bool true)
        else t).tags := by
  unfold ViewTimingMiddleware.process_view_try
  simp only [hp]
  generalize (if ignore_path ignored p then
    t.tag "ignore_transaction" (TagValue.bool true) else t) = t1
  cases hr : request.resolver_match_func_path with
  | error e => rfl
  | ok vn =>
    cases hcs : t1.current_span with
    | none => rfl
    | some sp =>
      cases hu : request.user_get_username with
      | none => simp [set_current_span_operation_tags, context_add_tags]
      | some u =>
        cases u with
        | error e => simp [set_current_span_operation_tags, context_add_tags]
        | ok uname => simp [set_current_span_operation_tags, context_add_tags]

/-- Claim C8: on an ignored path the process_view hooks tag the tracked
request with ignore_transaction true instead of suppressing tracking; the
old-style hook still starts its controller span and still marks the request
real after setting the tag. -/
theorem c8_thm (ignored : List String) (remote_ip : List (String × String) → String)
    (request : Request) (tr : TrackedRequest) (p vn : String)
    (hp : request.path = Except.ok p)
    (hi : ignore_path ignored p = true)
    (hv : request.resolver_match_func_path = Except.ok vn) :
    ("ignore_transaction", TagValue.bool true) ∈
      (ViewTimingMiddleware.process_view ignored remote_ip request tr).tags ∧
    (∃ tr2 span, OldStyleViewMiddleware.process_view ignored request tr =
        Except.ok (tr2, span) ∧
      ("ignore_transaction", TagValue.bool true) ∈ tr2.tags ∧
      tr2.spanStack = span :: tr.spanStack ∧
      tr2.realRequest = true) := by
  constructor
  · unfold ViewTimingMiddleware.process_view
    rw [view_timing_try_tags ignored remote_ip request tr p hp, if_pos hi]
    exact List.mem_cons_self _ _
  · unfold OldStyleViewMiddleware.process_view
    simp only [hp, hv]
    rw [if_pos hi]
    cases hu : request.user_get_username with
    | none => exact ⟨_, _, rfl, List.mem_cons_self _ _, rfl, rfl⟩
    | some u =>
      cases u with
      | error e => exact ⟨_, _, rfl, List.mem_cons_self _ _, rfl, rfl⟩
      | ok uname => exact ⟨_, _, rfl, List.mem_cons_self _ _, rfl, rfl⟩

/-- Claim C8 witness on a concrete ignored health path. -/
theorem c8_witness :
    ("ignore_transaction", TagValue.bool true) ∈
      (ViewTimingMiddleware.process_view ["/health"] (fun _ => "10.0.0.1") req_health
        tr_fresh).tags ∧
    (∃ tr2 span, OldStyleViewMiddleware.process_view ["/health"] req_health tr_fresh =
        Except.ok (tr2, span) ∧
      ("ignore_transaction", TagValue.bool true) ∈ tr2.tags ∧
      tr2.spanStack = span :: tr_fresh.spanStack ∧
      tr2.realRequest = true) :=
  c8_thm ["/health"] (fun _ => "10.0.0.1") req_health tr_fresh "/health/check"
    "app.views.health" rfl (by decide) rfl

/-- Once an item has its backtrace, further feeds of its signature only raise
the count and never capture again. -/
theorem feed_same_captured (th : Nat) (sig : String) :
    ∀ (n c : Nat),
      feed_same th true sig n
          { items := [{ sig := sig, count := c, capturedBacktrace := true }] } =
        ({ items := [{ sig := sig, count := c + n, capturedBacktrace := true }] }, 0) := by
  intro n
  induction n with
  | zero => intro c; simp [feed_same]
  | succ n ih =>
    intro c
    have hupd : NPlusOneCallSet.update th true sig
        { items := [{ sig := sig, count := c, capturedBacktrace := true }] } =
        ({ items := [{ sig := sig, count := c + 1, capturedBacktrace := true }] }, false) := by
      simp [NPlusOneCallSet.update, update_items]
    simp only [feed_same, hupd]
    rw [ih (c + 1)]
    have hc : c + 1 + n = c + (n + 1) := by omega
    simp [hc]

/-- Below the threshold and not yet captured, feeding one signature raises the
count one per feed and captures exactly once as soon as the count reaches the
threshold. -/
theorem feed_same_uncaptured (th : Nat) (sig : String) :
    ∀ (n c : Nat), c < th →
      feed_same th true sig n
          { items := [{ sig := sig, count := c, capturedBacktrace := false }] } =
        ({ items := [{ sig := sig, count := c + n,
                       capturedBacktrace := decide (th ≤ c + n) }] },
         if th ≤ c + n then 1 else 0) := by
  intro n
  induction n with
  | zero =>
    intro c hc
    have h1 : ¬(th ≤ c) := by omega
    simp [feed_same, h1, hc]
  | succ n ih =>
    intro c hc
    have hupd : NPlusOneCallSet.update th true sig
        { items := [{ sig := sig, count := c, capturedBacktrace := false }] } =
        ({ items := [{ sig := sig, count := c + 1,
                       capturedBacktrace := (c + 1 == th) }] }, (c + 1 == th)) := by
      simp [NPlusOneCallSet.update, update_items]
    simp only [feed_same, hupd]
    by_cases hth : c + 1 = th
    · have he : (c + 1 == th) = true := by simp [hth]
      rw [he]
      rw [feed_same_captured th sig n (c + 1)]
      have h2 : th ≤ c + (n + 1) := by omega
      have h3 : decide (th ≤ c + (n + 1)) = true := by simp [h2]
      have h4 : c + 1 + n = c + (n + 1) := by omega
      simp [h2, h3, h4]
    · have he : (c + 1 == th) = false := by simp [hth]
      rw [he]
      rw [ih (c + 1) (by omega)]
      have h4 : c + 1 + n = c + (n + 1) := by omega
      simp [h4]

/-- Feeding a fresh call set: a capture happens exactly when the number of
feeds reaches the threshold. -/
theorem feed_same_empty_caps (th : Nat) (sig : String) (n : Nat)
    (hth : 0 < th) (hn : 0 < n) :
    (feed_same th true sig n { items := [] }).2 = if th ≤ n then 1 else 0 := by
  obtain ⟨m, rfl⟩ : ∃ m, n = m + 1 := ⟨n - 1, by omega⟩
  have hupd : NPlusOneCallSet.update th true sig { items := [] } =
      ({ items := [{ sig := sig, count := 1, capturedBacktrace := (1 == th) }] },
       (1 == th)) := by
    simp [NPlusOneCallSet.update, update_items]
  simp only [feed_same, hupd]
  by_cases h1 : th = 1
  · have he : (1 == th) = true := by simp [h1]
    rw [he, feed_same_captured th sig m 1]
    have h2 : th ≤ m + 1 := by omega
    simp [h2]
  · have he : (1 == th) = false := by
      simp only [beq_eq_false_iff_ne]
      omega
    rw [he, feed_same_uncaptured th sig m 1 (by omega)]
    have h4 : 1 + m = m + 1 := by omega
    simp [h4]

/-- Claim C9: with the capture policy returning true, feeding one normalized
signature fewer than threshold times captures no backtrace, exactly threshold
times captures exactly one, and threshold plus k times never captures more
than once. -/
theorem c9_thm (threshold : Nat) (sig : String) (hth : 0 < threshold) :
    (∀ m, m < threshold → (feed_same threshold true sig m { items := [] }).2 = 0) ∧
    (feed_same threshold true sig threshold { items := [] }).2 = 1 ∧
    (∀ k, (feed_same threshold true sig (threshold + k) { items := [] }).2 ≤ 1) := by
  refine ⟨?_, ?_, ?_⟩
  · intro m hm
    cases m with
    | zero => rfl
    | succ m0 =>
      rw [feed_same_empty_caps threshold sig (m0 + 1) hth (by omega)]
      rw [if_neg (by omega)]
  · rw [feed_same_empty_caps threshold sig threshold hth hth]
    rw [if_pos (by omega)]
  · intro k
    rw [feed_same_empty_caps threshold sig (threshold + k) hth (by omega)]
    split <;> omega

/-- Claim C9 witness at threshold two. -/
theorem c9_witness :
    (feed_same 2 true "SELECT" 1 { items := [] }).2 = 0 ∧
    (feed_same 2 true "SELECT" 2 { items := [] }).2 = 1 ∧
    (feed_same 2 true "SELECT" 5 { items := [] }).2 ≤ 1 :=
  ⟨(c9_thm 2 "SELECT" (by decide)).1 1 (by decide),
   (c9_thm 2 "SELECT" (by decide)).2.1,
   (c9_thm 2 "SELECT" (by decide)).2.2 3⟩
